import Mathlib

/-!
# Verification of the file-sharing / ephemeral-chat application

Shallow embedding, in Lean 4, of the parts of the repository needed to settle
the frozen claims:

* `src/hooks/use-supabase-chat.ts` — the realtime chat synchronization hook
  (initial HTTP fetch, realtime INSERT/UPDATE merge handlers, retrying API
  client, reconnect scheduling);
* `src/app/api/files/upload/route.ts` — the upload POST handler (validation,
  virus-scan gate, object-storage upload, metadata insert, audit log, token
  cache);
* `src/app/files/manage/[id]/page.tsx` — the management page (edit-token
  gate, pending-deletion list, `formatFileSize`).

Conventions of the embedding:

* machine dates (`createdAt`, `Date.now()`, ISO strings) are modelled as epoch
  milliseconds (`Nat`, or `Int` where an offset can be negative); comparing
  `new Date(s).getTime()` values is comparing those numbers;
* fallible external calls (virus scanner, storage upload, metadata insert) are
  modelled by environment-supplied outcomes, and the handler's side effects are
  recorded both in an explicit store (object storage, `files` table,
  `audit_logs`, redis cache) and as an ordered event trace;
* JavaScript string truthiness (`s && ...`) is modelled by `truthy`, and
  `formData.get` returning `string | null` by `Option String`.
-/

/-! ## Chat hook: data model (`src/hooks/use-supabase-chat.ts`) -/

/-- `ChatMessage` from use-supabase-chat.ts; `createdAt` is the epoch-ms value
of the source's ISO string. -/
structure ChatMessage where
  id : String
  roomId : String
  username : String
  message : String
  messageType : String
  createdAt : Nat
  userId : Option String
deriving DecidableEq

/-- `ChatParticipant` from use-supabase-chat.ts. -/
structure ChatParticipant where
  id : String
  roomId : String
  username : String
  joinedAt : Nat
  lastSeen : Nat
  isOnline : Bool
  userId : Option String
deriving DecidableEq

/-- `ChatError` from use-supabase-chat.ts (code, message, timestamp). -/
structure ChatError where
  code : String
  message : String
  timestamp : Nat
deriving DecidableEq

/-- `ChatState` from use-supabase-chat.ts. -/
structure ChatState where
  messages : List ChatMessage
  participants : List ChatParticipant
  isConnected : Bool
  isLoading : Bool
  error : Option ChatError
  lastMessageId : Option String
deriving DecidableEq

/-- A raw `chat_messages` row as delivered in a realtime payload
(`payload.new`): snake_case columns. -/
structure MessageRow where
  id : String
  room_id : String
  username : String
  message : String
  message_type : String
  created_at : Nat
  user_id : Option String
deriving DecidableEq

/-- A raw `chat_participants` row as delivered in a realtime payload
(`payload.new`). -/
structure ParticipantRow where
  id : String
  room_id : String
  username : String
  joined_at : Nat
  last_seen : Nat
  is_online : Bool
  user_id : Option String
deriving DecidableEq

/-- The comparator of `fetchMessages`:
`(a, b) => new Date(a.createdAt).getTime() - new Date(b.createdAt).getTime()`
sorts ascending by `createdAt`. -/
def createdAtLE (a b : ChatMessage) : Bool :=
  a.createdAt ≤ b.createdAt

instance : IsTotal ChatMessage (fun a b => createdAtLE a b = true) :=
  ⟨fun a b => by
    simp only [createdAtLE, decide_eq_true_eq]
    exact Nat.le_total a.createdAt b.createdAt⟩

instance : IsTrans ChatMessage (fun a b => createdAtLE a b = true) :=
  ⟨fun a b c hab hbc => by
    simp only [createdAtLE, decide_eq_true_eq] at *
    exact Nat.le_trans hab hbc⟩

/-- The state update performed by `fetchMessages` when the HTTP fetch
succeeds: the messages list is replaced by the fetched array sorted ascending
by `createdAt` (the JS `Array.prototype.sort` mutates in place, so the
subsequent `messages[messages.length - 1].id` reads the sorted array), and
`lastMessageId` becomes the id of that last element, or `null` for an empty
fetch. -/
def applyFetchMessages (s : ChatState) (fetched : List ChatMessage) : ChatState :=
  let sorted := List.insertionSort (fun a b => createdAtLE a b = true) fetched
  { s with
    messages := sorted
    lastMessageId := (sorted.getLast?).map (fun m => m.id) }

/-- The state update of `fetchParticipants` on success: the participants list
is replaced by the fetched array as-is. -/
def applyFetchParticipants (s : ChatState) (fetched : List ChatParticipant) : ChatState :=
  { s with participants := fetched }

/-- The field mapping applied by the `chat_messages` INSERT handler to
`payload.new`. -/
def messageOfRow (r : MessageRow) : ChatMessage :=
  { id := r.id
    roomId := r.room_id
    username := r.username
    message := r.message
    messageType := r.message_type
    createdAt := r.created_at
    userId := r.user_id }

/-- The `chat_messages` INSERT handler: appends the mapped message to the end
of `messages` and sets `lastMessageId` to its id (no deduplication, no
re-sorting). -/
def applyMessageInsert (s : ChatState) (r : MessageRow) : ChatState :=
  { s with
    messages := s.messages ++ [messageOfRow r]
    lastMessageId := some r.id }

/-- The field mapping applied by the `chat_participants` INSERT handler to
`payload.new`. -/
def participantOfRow (r : ParticipantRow) : ChatParticipant :=
  { id := r.id
    roomId := r.room_id
    username := r.username
    joinedAt := r.joined_at
    lastSeen := r.last_seen
    isOnline := r.is_online
    userId := r.user_id }

/-- The `chat_participants` INSERT handler: appends the mapped participant to
the end of `participants` (no deduplication). -/
def applyParticipantInsert (s : ChatState) (r : ParticipantRow) : ChatState :=
  { s with participants := s.participants ++ [participantOfRow r] }

/-- The per-participant update of the `chat_participants` UPDATE handler:
`p.id === updatedParticipant.id ? { ...p, lastSeen, isOnline } : p`. -/
def updateParticipantFields (r : ParticipantRow) (p : ChatParticipant) : ChatParticipant :=
  if p.id = r.id then
    { p with lastSeen := r.last_seen, isOnline := r.is_online }
  else p

/-- The `chat_participants` UPDATE handler: maps `updateParticipantFields`
over the participants list and leaves the rest of the state alone. -/
def applyParticipantUpdate (s : ChatState) (r : ParticipantRow) : ChatState :=
  { s with participants := s.participants.map (updateParticipantFields r) }

/-! ## Chat hook: retry / reconnect constants and `makeRequest` -/

def RETRY_ATTEMPTS : Nat := 3
def RETRY_DELAY : Nat := 1000
def RECONNECT_DELAY : Nat := 5000

/-- `ChatAPIClient.makeRequest`, starting from a given `retryCount`.  The
outcome of the n-th attempt (fetch + response/JSON checks, anything thrown)
is supplied by `attempts n`.  Returns the final outcome together with the
list of `sleep` delays performed, in order: on a failed attempt with
`retryCount < RETRY_ATTEMPTS` the client sleeps `RETRY_DELAY * (retryCount + 1)`
milliseconds and recurses with `retryCount + 1`; otherwise the error
propagates. -/
def makeRequestFrom {α : Type} (attempts : Nat → Except String α)
    (retryCount : Nat) : Except String α × List Nat :=
  match attempts retryCount with
  | .ok v => (.ok v, [])
  | .error e =>
    if _h : retryCount < RETRY_ATTEMPTS then
      let r := makeRequestFrom attempts (retryCount + 1)
      (r.1, RETRY_DELAY * (retryCount + 1) :: r.2)
    else
      (.error e, [])
termination_by RETRY_ATTEMPTS - retryCount
decreasing_by simp_wf; omega

/-- `ChatAPIClient.makeRequest` as called, with `retryCount = 0`. -/
def makeRequest {α : Type} (attempts : Nat → Except String α) :
    Except String α × List Nat :=
  makeRequestFrom attempts 0

/-- The `subscribe` status callback: on `CHANNEL_ERROR` or `TIMED_OUT` a
reconnection is scheduled after `RECONNECT_DELAY` ms; otherwise none is
scheduled. -/
def subscribeStatusReconnectDelay (status : String) : Option Nat :=
  if status == "CHANNEL_ERROR" || status == "TIMED_OUT" then
    some RECONNECT_DELAY
  else
    none

/-- The `subscribe` status callback also sets
`isConnected := (status === 'SUBSCRIBED')`. -/
def subscribeStatusConnected (status : String) : Bool :=
  status == "SUBSCRIBED"

/-! ## Upload route: data model (`src/app/api/files/upload/route.ts`) -/

/-- JavaScript string truthiness for a `string | null` form value:
`null` and `''` are falsy. -/
def truthy : Option String → Bool
  | none => false
  | some s => !(s == "")

/-- `a || b` for a `string | null` on the left and a string default. -/
def jsOrStr (a : Option String) (b : String) : String :=
  match a with
  | none => b
  | some s => if s == "" then b else s

/-- JavaScript `parseInt(s)` (decimal): optional sign followed by the longest
digit prefix; `none` models `NaN` (no digits). -/
def parseIntJS (s : String) : Option Int :=
  let cs := s.data
  let signAndRest : Int × List Char :=
    match cs with
    | '-' :: r => (-1, r)
    | '+' :: r => (1, r)
    | r => (1, r)
  let ds := signAndRest.2.takeWhile Char.isDigit
  if ds.isEmpty then none
  else some (signAndRest.1 *
    (ds.foldl (fun a c => a * 10 + (c.toNat - 48)) 0 : Nat))

/-- The uploaded `File`: name, MIME type, size, and content bytes. -/
structure UploadFile where
  name : String
  type : String
  size : Nat
  content : List Nat
deriving DecidableEq

/-- The form fields of the upload request (`formData.get` returns
`string | null`), plus the request origin and user agent. -/
structure UploadRequest where
  file : Option UploadFile
  password : Option String
  expiresIn : Option String
  maxDownloads : Option String
  origin : String
  userAgent : Option String
deriving DecidableEq

/-- The result of `virusScanner.scanBuffer`. -/
structure ScanResult where
  isClean : Bool
  signature : Option String
  message : Option String
deriving DecidableEq

/-- A row of the relational `files` table as inserted by the route.
`expiry_date` and `uploaded_at` are epoch milliseconds (the route stores ISO
strings of these instants); `max_downloads` is `none` for SQL `null`, which
is also what a `NaN` from `parseInt` serializes to in the insert payload. -/
structure FileRow where
  original_name : String
  size : Nat
  mime_type : String
  download_token : String
  edit_token : String
  password : Option String
  expiry_date : Option Int
  max_downloads : Option Int
  download_count : Nat
  is_active : Bool
  uploaded_at : Nat
  uploaded_by : String
deriving DecidableEq

/-- A row of the `audit_logs` table (the fields the route writes). -/
structure AuditRow where
  action : String
  resource_type : String
  resource_id : String
  ip_address : String
  user_agent : Option String
  meta_filename : String
  meta_signature : Option String
  meta_message : Option String
  meta_size : Option Nat
  meta_mimeType : Option String
deriving DecidableEq

/-- The file-visible external state touched by the route: the object-storage
bucket, the relational `files` table, the `audit_logs` table, and the redis
cache (key, value, TTL seconds). -/
structure Store where
  storage : List (String × List Nat)
  files : List FileRow
  audit : List AuditRow
  redis : List (String × String × Nat)
deriving DecidableEq

/-- One attempted external side effect of the route, in program order. -/
inductive UploadEvent
  | scanEv (bytes : List Nat)
  | storageUploadEv (fileId : String) (bytes : List Nat)
  | filesInsertEv (row : FileRow)
  | auditInsertEv (action : String)
  | cacheSetEv (key value : String) (ttl : Nat)
deriving DecidableEq

/-- The JSON body of the route's response: an error body (optionally with a
`details` field) or the success payload. -/
inductive UploadBody
  | err (msg : String)
  | errDetails (msg details : String)
  | ok (fileId downloadUrl editUrl name : String) (size : Nat) (mime : String)
deriving DecidableEq

/-- The route's outcome: HTTP status, JSON body, resulting store, and ordered
trace of attempted external effects. -/
structure UploadResult where
  status : Nat
  body : UploadBody
  store : Store
  events : List UploadEvent
deriving DecidableEq

/-- The environment of a single POST call: configuration, and the outcomes of
each external dependency the handler consults. -/
structure UploadEnv where
  /-- Both service URLs are set and are not the placeholder values. -/
  configured : Bool
  /-- `fileUploadRateLimiter.isAllowed(request).allowed`. -/
  rateAllowed : Bool
  /-- `getAllowedTypes()`. -/
  allowedTypes : List String
  /-- `parseInt(process.env.MAX_FILE_SIZE || '104857600')`. -/
  maxSize : Nat
  /-- `validateFileType(name, type, allowedTypes)` (src/lib/security). -/
  validateFileType : String → String → List String → Bool
  /-- `validateFileSize(size, maxSize)` (src/lib/security). -/
  validateFileSize : Nat → Nat → Bool
  /-- `virusScanner.scanBuffer(buffer)` (src/lib/virusScanner). -/
  scanBuffer : List Nat → ScanResult
  /-- Whether the object-storage POST responds ok. -/
  storageOk : Bool
  /-- Response text of a failed object-storage POST. -/
  storageErrText : String
  /-- `error` of the `files` insert (`none` = success). -/
  insertError : Option String
  /-- `Date.now()` in ms. -/
  now : Nat
  /-- `process.env.NEXT_PUBLIC_BASE_URL` (`none`/`''` falls back to origin). -/
  baseUrl : Option String
  /-- `generateId()` (src/lib/security): the generated appwrite file id. -/
  generateIdVal : String
  /-- `getClientIP(request)` (src/lib/security). -/
  clientIP : String

/-- Modelled from the spec: `generateSecureId` (src/lib/security, not under
src/) — the route "issues opaque download/edit tokens"; modelled as a fresh
opaque-token generator, injective in the call index (first call 0, second
call 1). -/
def generateSecureId (callIdx : Nat) : String :=
  "secure-token-" ++ Nat.repr callIdx

/-- Modelled from the spec: `REDIS_KEYS.FILE_UPLOAD` (src/lib/redis, not
under src/) — the route "caches token-to-file mapping", keyed by the download
token. -/
def FILE_UPLOAD (downloadToken : String) : String :=
  "file_upload:" ++ downloadToken

/-- `JSON.stringify({ fileId, editToken })`. -/
def tokenCacheValue (fileId editToken : String) : String :=
  "\x7b\"fileId\":\"" ++ fileId ++ "\",\"editToken\":\"" ++ editToken ++ "\"\x7d"

/-- The `expiry_date` computation:
`let expiryDate = null; if (expiresIn && expiresIn !== 'never') { const hours
= parseInt(expiresIn); expiryDate = new Date(Date.now() + hours*60*60*1000)
.toISOString() }`.  A `NaN` from `parseInt` makes `toISOString()` throw
(`Invalid Date`), which the route's outer try/catch turns into a 500; that is
the `.error` case. -/
def computeExpiry (now : Nat) (expiresIn : Option String) : Except Unit (Option Int) :=
  match expiresIn with
  | none => .ok none
  | some e =>
    if e ≠ "" ∧ e ≠ "never" then
      match parseIntJS e with
      | some hours => .ok (some ((now : Int) + hours * 60 * 60 * 1000))
      | none => .error ()
    else
      .ok none

/-- The `files` row the route inserts (line 154–170 of the route). -/
def insertedRow (env : UploadEnv) (req : UploadRequest) (f : UploadFile)
    (expiryDate : Option Int) : FileRow :=
  { original_name := f.name
    size := f.size
    mime_type := f.type
    download_token := generateSecureId 0
    edit_token := generateSecureId 1
    password := if truthy req.password then req.password else none
    expiry_date := expiryDate
    max_downloads :=
      if truthy req.maxDownloads then
        parseIntJS ((req.maxDownloads).getD "")
      else none
    download_count := 0
    is_active := true
    uploaded_at := env.now
    uploaded_by := env.clientIP }

/-- The `audit_logs` row written on a detected virus (line 99–110). -/
def virusAuditRow (env : UploadEnv) (req : UploadRequest) (f : UploadFile)
    (fileId : String) (scan : ScanResult) : AuditRow :=
  { action := "virus_detected"
    resource_type := "file"
    resource_id := fileId
    ip_address := env.clientIP
    user_agent := req.userAgent
    meta_filename := f.name
    meta_signature := scan.signature
    meta_message := scan.message
    meta_size := none
    meta_mimeType := none }

/-- The `audit_logs` row written on a successful upload (line 180–191). -/
def uploadAuditRow (env : UploadEnv) (req : UploadRequest) (f : UploadFile)
    (fileId : String) : AuditRow :=
  { action := "file_upload"
    resource_type := "file"
    resource_id := fileId
    ip_address := env.clientIP
    user_agent := req.userAgent
    meta_filename := f.name
    meta_signature := none
    meta_message := none
    meta_size := some f.size
    meta_mimeType := some f.type }

/-- The upload POST handler (`src/app/api/files/upload/route.ts`), as a
function of its environment, request, and the initial external store. -/
def uploadPOST (env : UploadEnv) (req : UploadRequest) (s0 : Store) : UploadResult :=
  if !env.configured then
    ⟨503, .err "Service not properly configured", s0, []⟩
  else if !env.rateAllowed then
    ⟨429, .err "Too many upload attempts. Please try again later.", s0, []⟩
  else
    match req.file with
    | none => ⟨400, .err "No file provided", s0, []⟩
    | some f =>
      if !(env.validateFileType f.name f.type env.allowedTypes) then
        ⟨400, .err "File type not allowed", s0, []⟩
      else if !(env.validateFileSize f.size env.maxSize) then
        ⟨400, .err "File size exceeds limit", s0, []⟩
      else
        let fileId := env.generateIdVal
        let downloadToken := generateSecureId 0
        let editToken := generateSecureId 1
        let scanResult := env.scanBuffer f.content
        if !scanResult.isClean then
          ⟨400, .err "File contains malicious content and cannot be uploaded",
            { s0 with audit := s0.audit ++ [virusAuditRow env req f fileId scanResult] },
            [.scanEv f.content, .auditInsertEv "virus_detected"]⟩
        else if !env.storageOk then
          ⟨500, .errDetails "Appwrite upload failed" env.storageErrText, s0,
            [.scanEv f.content, .storageUploadEv fileId f.content]⟩
        else
          let s1 := { s0 with storage := s0.storage ++ [(fileId, f.content)] }
          match computeExpiry env.now req.expiresIn with
          | .error _ =>
            ⟨500, .err "Upload failed. Please try again.", s1,
              [.scanEv f.content, .storageUploadEv fileId f.content]⟩
          | .ok expiryDate =>
            let row := insertedRow env req f expiryDate
            match env.insertError with
            | some msg =>
              ⟨500, .errDetails "Failed to save file metadata in Supabase" msg, s1,
                [.scanEv f.content, .storageUploadEv fileId f.content,
                 .filesInsertEv row]⟩
            | none =>
              let s2 := { s1 with files := s1.files ++ [row] }
              let s3 := { s2 with audit := s2.audit ++ [uploadAuditRow env req f fileId] }
              let cacheKey := FILE_UPLOAD downloadToken
              let cacheVal := tokenCacheValue fileId editToken
              let s4 := { s3 with redis := s3.redis ++ [(cacheKey, cacheVal, 24 * 60 * 60)] }
              let baseUrl := jsOrStr env.baseUrl req.origin
              ⟨200,
                .ok fileId (baseUrl ++ "/files/" ++ downloadToken)
                  (baseUrl ++ "/files/manage/" ++ editToken) f.name f.size f.type,
                s4,
                [.scanEv f.content, .storageUploadEv fileId f.content,
                 .filesInsertEv row, .auditInsertEv "file_upload",
                 .cacheSetEv cacheKey cacheVal (24 * 60 * 60)]⟩

/-! ## Management page (`src/app/files/manage/[id]/page.tsx`) -/

/-- The pieces of the management page's component state that the
authentication gate reads and writes. -/
structure ManageAuthState where
  editToken : String
  isAuthenticated : Bool
  error : String
deriving DecidableEq

/-- `handleAuthenticate` (page.tsx line 96–104): the source comment reads
"Simulate token verification (replace with real check if needed)" — it grants
access when the entered token is truthy and at least 10 characters long, and
otherwise sets the error `'Invalid edit token.'` (leaving `isAuthenticated`
as it was). -/
def handleAuthenticate (s : ManageAuthState) : ManageAuthState :=
  if truthy (some s.editToken) ∧ 10 ≤ s.editToken.length then
    { s with isAuthenticated := true, error := "" }
  else
    { s with error := "Invalid edit token." }

/-- `handleDeleteExistingFile` (page.tsx line 141–143): appends the token to
`filesToDelete`. -/
def handleDeleteExistingFile (filesToDelete : List String) (fileToken : String) :
    List String :=
  filesToDelete ++ [fileToken]

/-- `handleUndoDeleteExistingFile` (page.tsx line 146–148): removes every
occurrence of the token from `filesToDelete`. -/
def handleUndoDeleteExistingFile (filesToDelete : List String) (fileToken : String) :
    List String :=
  filesToDelete.filter (fun token => token ≠ fileToken)

/-- The unit list of `formatFileSize`. -/
def sizesList : List String := ["Bytes", "KB", "MB", "GB"]

/-- `(bytes / 1024^i).toFixed(2)` as an exact count of hundredths, rounding
half up (the embedding computes the rational exactly where JS rounds the
nearest double). -/
def hundredthsOf (bytes denom : Nat) : Nat :=
  (bytes * 200 + denom) / (2 * denom)

/-- The decimal rendering that `parseFloat((...).toFixed(2))` concatenates:
trailing zeros of the two decimal places are dropped, an integral value
prints with no point. -/
def fmtHundredths (n100 : Nat) : String :=
  let ip := n100 / 100
  let fr := n100 % 100
  if fr = 0 then Nat.repr ip
  else if fr % 10 = 0 then Nat.repr ip ++ "." ++ Nat.repr (fr / 10)
  else if fr < 10 then Nat.repr ip ++ ".0" ++ Nat.repr fr
  else Nat.repr ip ++ "." ++ Nat.repr fr

/-- `formatFileSize` (page.tsx line 106–112).  `Math.floor(Math.log(bytes) /
Math.log(1024))` is embedded exactly as `Nat.log 1024 bytes`; `sizes[i]` is
JavaScript indexing, which yields `undefined` past the end of the array, so
the concatenated string ends in `"undefined"` there. -/
def formatFileSize (bytes : Nat) : String :=
  if bytes = 0 then "0 Bytes"
  else
    let k := 1024
    let i := Nat.log k bytes
    fmtHundredths (hundredthsOf bytes (k ^ i)) ++ " " ++ (sizesList.getD i "undefined")

/-! ## Concrete fixtures used by the witness theorems -/

/-- A concrete uploaded file. -/
def wFile : UploadFile := ⟨"a.txt", "text/plain", 3, [1, 2, 3]⟩

/-- An empty initial external store. -/
def wStore : Store := ⟨[], [], [], []⟩

/-- An environment in which every step of the upload succeeds. -/
def wEnvOk : UploadEnv :=
  { configured := true
    rateAllowed := true
    allowedTypes := ["txt"]
    maxSize := 104857600
    validateFileType := fun _ _ _ => true
    validateFileSize := fun _ _ => true
    scanBuffer := fun _ => ⟨true, none, none⟩
    storageOk := true
    storageErrText := ""
    insertError := none
    now := 1000
    baseUrl := some "https://h"
    generateIdVal := "fid1"
    clientIP := "1.2.3.4" }

/-- Like `wEnvOk` but the virus scan reports the buffer as not clean. -/
def wEnvVirus : UploadEnv :=
  { wEnvOk with scanBuffer := fun _ => ⟨false, some "SIG", some "bad"⟩ }

/-- Like `wEnvOk` but the file type is rejected. -/
def wEnvBadType : UploadEnv :=
  { wEnvOk with validateFileType := fun _ _ _ => false }

/-- A request with a 24-hour expiry and a download limit. -/
def wReq : UploadRequest :=
  ⟨some wFile, none, some "24", some "5", "http://o", none⟩

/-- A request with no password, no expiry and no download limit. -/
def wReq2 : UploadRequest :=
  ⟨some wFile, none, none, none, "http://o", none⟩

/-! ## Helper lemmas -/

/-- Unfolding of `formatFileSize` for a nonzero byte count. -/
lemma formatFileSize_pos (n : Nat) (h : ¬ n = 0) :
    formatFileSize n =
      fmtHundredths (hundredthsOf n (1024 ^ Nat.log 1024 n)) ++ " " ++
        sizesList.getD (Nat.log 1024 n) "undefined" := by
  simp only [formatFileSize, if_neg h]

/-- `makeRequestFrom` on a successful attempt. -/
lemma makeRequestFrom_ok {α : Type} {attempts : Nat → Except String α} {rc : Nat}
    {v : α} (h : attempts rc = .ok v) :
    makeRequestFrom attempts rc = (.ok v, []) := by
  rw [makeRequestFrom, h]

/-- `makeRequestFrom` on a failed attempt with retries left: sleep
`RETRY_DELAY * (rc + 1)` and recurse. -/
lemma makeRequestFrom_error_lt {α : Type} {attempts : Nat → Except String α} {rc : Nat}
    {e : String} (h : attempts rc = .error e) (hlt : rc < RETRY_ATTEMPTS) :
    makeRequestFrom attempts rc =
      ((makeRequestFrom attempts (rc + 1)).1,
        RETRY_DELAY * (rc + 1) :: (makeRequestFrom attempts (rc + 1)).2) := by
  rw [makeRequestFrom, h]
  simp [hlt]

/-- `makeRequestFrom` on a failed attempt with no retries left: the error
propagates. -/
lemma makeRequestFrom_error_ge {α : Type} {attempts : Nat → Except String α} {rc : Nat}
    {e : String} (h : attempts rc = .error e) (hge : ¬ rc < RETRY_ATTEMPTS) :
    makeRequestFrom attempts rc = (.error e, []) := by
  rw [makeRequestFrom, h]
  simp [hge]

/-! ## The claims -/

/-- C1 (amended): after the initial HTTP fetch the messages list is sorted
ascending by `createdAt`; the realtime INSERT handlers append the incoming
message/participant to the end of the list unconditionally, so each merged
INSERT increases the occurrence count of its id by one (no deduplication,
no re-sorting). -/
theorem chat_merge_sorted_nodedup :
    (∀ (s : ChatState) (fetched : List ChatMessage),
      (applyFetchMessages s fetched).messages.Pairwise
        (fun a b => a.createdAt ≤ b.createdAt)) ∧
    (∀ (s : ChatState) (r : MessageRow),
      ((applyMessageInsert s r).messages.map (fun m => m.id)).count r.id =
        ((s.messages.map (fun m => m.id)).count r.id) + 1) ∧
    (∀ (s : ChatState) (r : ParticipantRow),
      ((applyParticipantInsert s r).participants.map (fun p => p.id)).count r.id =
        ((s.participants.map (fun p => p.id)).count r.id) + 1) := by
  refine ⟨?_, ?_, ?_⟩
  · intro s fetched
    have hs := List.sorted_insertionSort (fun a b => createdAtLE a b = true) fetched
    refine List.Pairwise.imp ?_ hs
    intro a b hab
    simpa [createdAtLE] using hab
  · intro s r
    simp [applyMessageInsert, messageOfRow, List.count_append]
  · intro s r
    simp [applyParticipantInsert, participantOfRow, List.count_append]

/-- C1 counterexample: fetching the message with id `m1` and then merging a
realtime INSERT for the same id leaves `m1` in the messages list twice, so
after a merged event the list does not contain each id at most once; a
late INSERT with an older `createdAt` also breaks the ascending order, and
a participant INSERT duplicates a present participant id. -/
theorem chat_merge_dup_cex :
    ((applyMessageInsert
        (applyFetchMessages ⟨[], [], false, false, none, none⟩
          [⟨"m1", "r1", "alice", "hi", "text", 1000, none⟩])
        ⟨"m1", "r1", "alice", "hi", "text", 1000, none⟩).messages.map
        (fun m => m.id)) = ["m1", "m1"] ∧
    ¬ ((applyMessageInsert
        (applyFetchMessages ⟨[], [], false, false, none, none⟩
          [⟨"m1", "r1", "alice", "hi", "text", 1000, none⟩])
        ⟨"m1", "r1", "alice", "hi", "text", 1000, none⟩).messages.map
        (fun m => m.id)).Nodup ∧
    ¬ ((applyMessageInsert
        (applyFetchMessages ⟨[], [], false, false, none, none⟩
          [⟨"m2", "r1", "alice", "hi", "text", 1000, none⟩])
        ⟨"m1", "r1", "bob", "yo", "text", 500, none⟩).messages.Pairwise
        (fun a b => a.createdAt ≤ b.createdAt)) ∧
    ¬ ((applyParticipantInsert
        (applyFetchParticipants ⟨[], [], false, false, none, none⟩
          [⟨"p1", "r1", "alice", 10, 10, true, none⟩])
        ⟨"p1", "r1", "alice", 10, 20, true, none⟩).participants.map
        (fun p => p.id)).Nodup := by
  refine ⟨by decide, by decide, ?_, by decide⟩
  decide

/-- C2: if the virus scan reports the buffer as not clean, the upload POST
handler responds 400 with the message `'File contains malicious content and
cannot be uploaded'`; the object-storage bucket, the `files` table and the
redis cache are unchanged, exactly one `virus_detected` audit row is
written, and the only attempted effects are the scan and that audit
insert. -/
theorem upload_virus_gate (env : UploadEnv) (req : UploadRequest) (s0 : Store)
    (f : UploadFile)
    (hc : env.configured = true) (hr : env.rateAllowed = true)
    (hf : req.file = some f)
    (ht : env.validateFileType f.name f.type env.allowedTypes = true)
    (hs : env.validateFileSize f.size env.maxSize = true)
    (hv : (env.scanBuffer f.content).isClean = false) :
    (uploadPOST env req s0).status = 400 ∧
    (uploadPOST env req s0).body =
      .err "File contains malicious content and cannot be uploaded" ∧
    (uploadPOST env req s0).store.storage = s0.storage ∧
    (uploadPOST env req s0).store.files = s0.files ∧
    (uploadPOST env req s0).store.redis = s0.redis ∧
    (uploadPOST env req s0).store.audit =
      s0.audit ++ [virusAuditRow env req f env.generateIdVal (env.scanBuffer f.content)] ∧
    (uploadPOST env req s0).events =
      [.scanEv f.content, .auditInsertEv "virus_detected"] := by
  simp [uploadPOST, hc, hr, hf, ht, hs, hv]

/-- C2 witness: the virus gate evaluated in a concrete environment whose
scanner flags the buffer. -/
theorem upload_virus_gate_witness :
    (uploadPOST wEnvVirus wReq wStore).status = 400 ∧
    (uploadPOST wEnvVirus wReq wStore).body =
      .err "File contains malicious content and cannot be uploaded" ∧
    (uploadPOST wEnvVirus wReq wStore).store.storage = wStore.storage ∧
    (uploadPOST wEnvVirus wReq wStore).store.files = wStore.files ∧
    (uploadPOST wEnvVirus wReq wStore).store.redis = wStore.redis ∧
    (uploadPOST wEnvVirus wReq wStore).store.audit =
      wStore.audit ++
        [virusAuditRow wEnvVirus wReq wFile "fid1" ⟨false, some "SIG", some "bad"⟩] ∧
    (uploadPOST wEnvVirus wReq wStore).events =
      [.scanEv wFile.content, .auditInsertEv "virus_detected"] :=
  upload_virus_gate wEnvVirus wReq wStore wFile rfl rfl rfl rfl rfl rfl

/-- C3 counterexample: `handleAuthenticate` grants access for the supplied
token `"0123456789"`, which is not the file's edit token (in particular it
differs from any token the upload route issues): the page never compares
the input against the file's edit token. -/
theorem manage_auth_length_cex :
    (handleAuthenticate ⟨"0123456789", false, ""⟩).isAuthenticated = true ∧
    "0123456789" ≠ generateSecureId 1 := by
  constructor
  · rfl
  · decide

/-- C3 (amended): `handleAuthenticate` grants access (sets
`isAuthenticated`) exactly when the supplied token is non-empty and at
least 10 characters long — a placeholder check, per the source comment
"Simulate token verification" — and otherwise sets the error
`'Invalid edit token.'` and leaves `isAuthenticated` unchanged. -/
theorem manage_auth_length_gate (s : ManageAuthState) :
    (¬ s.editToken = "" → 10 ≤ s.editToken.length →
      handleAuthenticate s = { s with isAuthenticated := true, error := "" }) ∧
    ((s.editToken = "" ∨ s.editToken.length < 10) →
      handleAuthenticate s = { s with error := "Invalid edit token." } ∧
      (handleAuthenticate s).isAuthenticated = s.isAuthenticated) := by
  constructor
  · intro h1 h2
    unfold handleAuthenticate
    rw [if_pos]
    constructor
    · simpa [truthy] using h1
    · exact h2
  · intro h
    unfold handleAuthenticate
    rw [if_neg]
    · constructor
      · rfl
      · rfl
    · rcases h with h | h
      · simp [truthy, h]
      · intro ⟨_, h2⟩
        omega

/-- C3 witness: both branches of the amended gate at concrete tokens. -/
theorem manage_auth_length_gate_witness :
    handleAuthenticate ⟨"0123456789", false, ""⟩ =
      { editToken := "0123456789", isAuthenticated := true, error := "" } ∧
    handleAuthenticate ⟨"short", false, "" ⟩ =
      { editToken := "short", isAuthenticated := false,
        error := "Invalid edit token." } ∧
    (handleAuthenticate ⟨"short", false, ""⟩).isAuthenticated = false := by
  refine ⟨(manage_auth_length_gate _).1 (by decide) (by decide), ?_, ?_⟩
  · exact ((manage_auth_length_gate ⟨"short", false, ""⟩).2 (Or.inr (by decide))).1
  · exact ((manage_auth_length_gate ⟨"short", false, ""⟩).2 (Or.inr (by decide))).2

/-- C4: the upload POST handler validates file type, then file size, then
scans, then uploads to object storage, then inserts the metadata row, then
caches the token mapping; a disallowed type yields 400 `'File type not
allowed'` with no effects, an oversize file 400 `'File size exceeds limit'`
with no effects, a storage failure 500 with no insert/cache attempted, an
insert failure 500 with no cache attempted, and the success trace performs
the five effects in program order. -/
theorem upload_step_order (env : UploadEnv) (req : UploadRequest) (s0 : Store)
    (f : UploadFile)
    (hc : env.configured = true) (hr : env.rateAllowed = true)
    (hf : req.file = some f) :
    (env.validateFileType f.name f.type env.allowedTypes = false →
      (uploadPOST env req s0).status = 400 ∧
      (uploadPOST env req s0).body = .err "File type not allowed" ∧
      (uploadPOST env req s0).events = [] ∧
      (uploadPOST env req s0).store = s0) ∧
    (env.validateFileType f.name f.type env.allowedTypes = true →
     env.validateFileSize f.size env.maxSize = false →
      (uploadPOST env req s0).status = 400 ∧
      (uploadPOST env req s0).body = .err "File size exceeds limit" ∧
      (uploadPOST env req s0).events = [] ∧
      (uploadPOST env req s0).store = s0) ∧
    (env.validateFileType f.name f.type env.allowedTypes = true →
     env.validateFileSize f.size env.maxSize = true →
     (env.scanBuffer f.content).isClean = false →
      (uploadPOST env req s0).status = 400 ∧
      (uploadPOST env req s0).events =
        [.scanEv f.content, .auditInsertEv "virus_detected"] ∧
      (uploadPOST env req s0).store.storage = s0.storage ∧
      (uploadPOST env req s0).store.files = s0.files ∧
      (uploadPOST env req s0).store.redis = s0.redis) ∧
    (env.validateFileType f.name f.type env.allowedTypes = true →
     env.validateFileSize f.size env.maxSize = true →
     (env.scanBuffer f.content).isClean = true →
     env.storageOk = false →
      (uploadPOST env req s0).status = 500 ∧
      (uploadPOST env req s0).body =
        .errDetails "Appwrite upload failed" env.storageErrText ∧
      (uploadPOST env req s0).events =
        [.scanEv f.content, .storageUploadEv env.generateIdVal f.content] ∧
      (uploadPOST env req s0).store.storage = s0.storage ∧
      (uploadPOST env req s0).store.files = s0.files ∧
      (uploadPOST env req s0).store.redis = s0.redis) ∧
    (∀ ed msg,
     env.validateFileType f.name f.type env.allowedTypes = true →
     env.validateFileSize f.size env.maxSize = true →
     (env.scanBuffer f.content).isClean = true →
     env.storageOk = true →
     computeExpiry env.now req.expiresIn = .ok ed →
     env.insertError = some msg →
      (uploadPOST env req s0).status = 500 ∧
      (uploadPOST env req s0).body =
        .errDetails "Failed to save file metadata in Supabase" msg ∧
      (uploadPOST env req s0).events =
        [.scanEv f.content, .storageUploadEv env.generateIdVal f.content,
         .filesInsertEv (insertedRow env req f ed)] ∧
      (uploadPOST env req s0).store.files = s0.files ∧
      (uploadPOST env req s0).store.redis = s0.redis) ∧
    (∀ ed,
     env.validateFileType f.name f.type env.allowedTypes = true →
     env.validateFileSize f.size env.maxSize = true →
     (env.scanBuffer f.content).isClean = true →
     env.storageOk = true →
     computeExpiry env.now req.expiresIn = .ok ed →
     env.insertError = none →
      (uploadPOST env req s0).events =
        [.scanEv f.content, .storageUploadEv env.generateIdVal f.content,
         .filesInsertEv (insertedRow env req f ed), .auditInsertEv "file_upload",
         .cacheSetEv (FILE_UPLOAD (generateSecureId 0))
           (tokenCacheValue env.generateIdVal (generateSecureId 1)) (24 * 60 * 60)]) := by
  refine ⟨?_, ?_, ?_, ?_, ?_, ?_⟩
  · intro h1
    simp [uploadPOST, hc, hr, hf, h1]
  · intro h1 h2
    simp [uploadPOST, hc, hr, hf, h1, h2]
  · intro h1 h2 h3
    simp [uploadPOST, hc, hr, hf, h1, h2, h3]
  · intro h1 h2 h3 h4
    simp [uploadPOST, hc, hr, hf, h1, h2, h3, h4]
  · intro ed msg h1 h2 h3 h4 h5 h6
    simp [uploadPOST, hc, hr, hf, h1, h2, h3, h4, h5, h6]
  · intro ed h1 h2 h3 h4 h5 h6
    simp [uploadPOST, hc, hr, hf, h1, h2, h3, h4, h5, h6]

/-- C4 witness: the type-failure branch and the success-path event trace at
concrete inputs. -/
theorem upload_step_order_witness :
    ((uploadPOST wEnvBadType wReq wStore).status = 400 ∧
     (uploadPOST wEnvBadType wReq wStore).body = .err "File type not allowed" ∧
     (uploadPOST wEnvBadType wReq wStore).events = [] ∧
     (uploadPOST wEnvBadType wReq wStore).store = wStore) ∧
    (uploadPOST wEnvOk wReq wStore).events =
      [.scanEv wFile.content, .storageUploadEv "fid1" wFile.content,
       .filesInsertEv (insertedRow wEnvOk wReq wFile (some 86401000)),
       .auditInsertEv "file_upload",
       .cacheSetEv (FILE_UPLOAD (generateSecureId 0))
         (tokenCacheValue "fid1" (generateSecureId 1)) (24 * 60 * 60)] := by
  refine ⟨(upload_step_order wEnvBadType wReq wStore wFile rfl rfl rfl).1 rfl, ?_⟩
  exact (upload_step_order wEnvOk wReq wStore wFile rfl rfl rfl).2.2.2.2.2
    (some 86401000) rfl rfl rfl rfl rfl rfl

/-- C5: on a successful upload the route issues two distinct opaque tokens,
responds 200 with success payload carrying the fileId, a download URL
ending in the download token, an edit URL ending in the edit token and the
file's name/size/type, and caches the download token mapped to
`{fileId, editToken}` with a TTL of `24 * 60 * 60 = 86400` seconds. -/
theorem upload_success_response (env : UploadEnv) (req : UploadRequest)
    (s0 : Store) (f : UploadFile) (ed : Option Int)
    (hc : env.configured = true) (hr : env.rateAllowed = true)
    (hf : req.file = some f)
    (ht : env.validateFileType f.name f.type env.allowedTypes = true)
    (hs : env.validateFileSize f.size env.maxSize = true)
    (hv : (env.scanBuffer f.content).isClean = true)
    (hst : env.storageOk = true)
    (hexp : computeExpiry env.now req.expiresIn = .ok ed)
    (hins : env.insertError = none) :
    generateSecureId 0 ≠ generateSecureId 1 ∧
    (uploadPOST env req s0).status = 200 ∧
    (uploadPOST env req s0).body =
      .ok env.generateIdVal
        (jsOrStr env.baseUrl req.origin ++ "/files/" ++ generateSecureId 0)
        (jsOrStr env.baseUrl req.origin ++ "/files/manage/" ++ generateSecureId 1)
        f.name f.size f.type ∧
    (∃ p, jsOrStr env.baseUrl req.origin ++ "/files/" ++ generateSecureId 0 =
      p ++ generateSecureId 0) ∧
    (∃ p, jsOrStr env.baseUrl req.origin ++ "/files/manage/" ++ generateSecureId 1 =
      p ++ generateSecureId 1) ∧
    (uploadPOST env req s0).store.redis =
      s0.redis ++ [(FILE_UPLOAD (generateSecureId 0),
        tokenCacheValue env.generateIdVal (generateSecureId 1), 86400)] ∧
    24 * 60 * 60 = 86400 := by
  refine ⟨by decide, ?_, ?_, ⟨_, rfl⟩, ⟨_, rfl⟩, ?_, rfl⟩
  · simp [uploadPOST, hc, hr, hf, ht, hs, hv, hst, hexp, hins]
  · simp [uploadPOST, hc, hr, hf, ht, hs, hv, hst, hexp, hins]
  · simp [uploadPOST, hc, hr, hf, ht, hs, hv, hst, hexp, hins]

/-- C5 witness: the success response in a concrete all-success
environment. -/
theorem upload_success_response_witness :
    generateSecureId 0 ≠ generateSecureId 1 ∧
    (uploadPOST wEnvOk wReq wStore).status = 200 ∧
    (uploadPOST wEnvOk wReq wStore).body =
      .ok "fid1" ("https://h" ++ "/files/" ++ generateSecureId 0)
        ("https://h" ++ "/files/manage/" ++ generateSecureId 1)
        "a.txt" 3 "text/plain" ∧
    (∃ p, "https://h" ++ "/files/" ++ generateSecureId 0 = p ++ generateSecureId 0) ∧
    (∃ p, "https://h" ++ "/files/manage/" ++ generateSecureId 1 =
      p ++ generateSecureId 1) ∧
    (uploadPOST wEnvOk wReq wStore).store.redis =
      wStore.redis ++ [(FILE_UPLOAD (generateSecureId 0),
        tokenCacheValue "fid1" (generateSecureId 1), 86400)] ∧
    24 * 60 * 60 = 86400 :=
  upload_success_response wEnvOk wReq wStore wFile (some 86401000)
    rfl rfl rfl rfl rfl rfl rfl rfl rfl

/-- C6: the inserted `files` row has `expiry_date = now + parseInt(expiresIn)
* 60 * 60 * 1000` ms when `expiresIn` is present and differs from `'never'`
(and parses), `null` when it is absent or `'never'`; `password` is `null`
when no password is given and `max_downloads` is `null` when no limit is
given; `uploaded_at` is the upload time. -/
theorem upload_row_optionals (env : UploadEnv) (req : UploadRequest)
    (s0 : Store) (f : UploadFile) (ed : Option Int)
    (hc : env.configured = true) (hr : env.rateAllowed = true)
    (hf : req.file = some f)
    (ht : env.validateFileType f.name f.type env.allowedTypes = true)
    (hs : env.validateFileSize f.size env.maxSize = true)
    (hv : (env.scanBuffer f.content).isClean = true)
    (hst : env.storageOk = true)
    (hexp : computeExpiry env.now req.expiresIn = .ok ed)
    (hins : env.insertError = none) :
    (uploadPOST env req s0).store.files = s0.files ++ [insertedRow env req f ed] ∧
    (∀ e hrs, req.expiresIn = some e → e ≠ "" → e ≠ "never" →
      parseIntJS e = some hrs →
      (insertedRow env req f ed).expiry_date =
        some ((env.now : Int) + hrs * 60 * 60 * 1000)) ∧
    ((req.expiresIn = none ∨ req.expiresIn = some "never") →
      (insertedRow env req f ed).expiry_date = none) ∧
    ((req.password = none ∨ req.password = some "") →
      (insertedRow env req f ed).password = none) ∧
    ((req.maxDownloads = none ∨ req.maxDownloads = some "") →
      (insertedRow env req f ed).max_downloads = none) ∧
    (insertedRow env req f ed).uploaded_at = env.now := by
  refine ⟨?_, ?_, ?_, ?_, ?_, rfl⟩
  · simp [uploadPOST, hc, hr, hf, ht, hs, hv, hst, hexp, hins]
  · intro e hrs he hne hnev hparse
    have : ed = some ((env.now : Int) + hrs * 60 * 60 * 1000) := by
      rw [he] at hexp
      simp [computeExpiry, hne, hnev, hparse] at hexp
      exact hexp.symm
    simp [insertedRow, this]
  · intro h
    have : ed = none := by
      rcases h with h | h <;> rw [h] at hexp <;> simp [computeExpiry] at hexp <;>
        exact hexp.symm
    simp [insertedRow, this]
  · intro h
    rcases h with h | h <;> simp [insertedRow, truthy, h]
  · intro h
    rcases h with h | h <;> simp [insertedRow, truthy, h]

/-- C6 witness: the inserted row's optional fields for a request with a
24-hour expiry and for a request with no optional fields. -/
theorem upload_row_optionals_witness :
    (uploadPOST wEnvOk wReq wStore).store.files =
      wStore.files ++ [insertedRow wEnvOk wReq wFile (some 86401000)] ∧
    (insertedRow wEnvOk wReq wFile (some 86401000)).expiry_date =
      some 86401000 ∧
    (insertedRow wEnvOk wReq2 wFile none).expiry_date = none ∧
    (insertedRow wEnvOk wReq2 wFile none).password = none ∧
    (insertedRow wEnvOk wReq2 wFile none).max_downloads = none := by
  have hA := upload_row_optionals wEnvOk wReq wStore wFile (some 86401000)
    rfl rfl rfl rfl rfl rfl rfl rfl rfl
  have hB := upload_row_optionals wEnvOk wReq2 wStore wFile none
    rfl rfl rfl rfl rfl rfl rfl rfl rfl
  refine ⟨hA.1, ?_, hB.2.2.1 (Or.inl rfl), hB.2.2.2.1 (Or.inl rfl),
    hB.2.2.2.2.1 (Or.inl rfl)⟩
  exact hA.2.1 "24" 24 rfl (by decide) (by decide) (by decide)

/-- C7: merging a realtime UPDATE for `chat_participants` row `u` maps the
participants list so that entries whose id differs from `u.id` are
unchanged, a matching entry keeps its id, roomId, username, joinedAt and
userId and takes `lastSeen`/`isOnline` from `u`; the messages list and
every other field of the chat state are unchanged, and the list length is
preserved. -/
theorem participant_update_frame (s : ChatState) (r : ParticipantRow)
    (i : Nat) (h : i < s.participants.length) :
    ((applyParticipantUpdate s r).messages = s.messages ∧
     (applyParticipantUpdate s r).isConnected = s.isConnected ∧
     (applyParticipantUpdate s r).isLoading = s.isLoading ∧
     (applyParticipantUpdate s r).error = s.error ∧
     (applyParticipantUpdate s r).lastMessageId = s.lastMessageId ∧
     (applyParticipantUpdate s r).participants.length = s.participants.length) ∧
    ∀ h' : i < (applyParticipantUpdate s r).participants.length,
      (((s.participants.get ⟨i, h⟩).id ≠ r.id →
        (applyParticipantUpdate s r).participants.get ⟨i, h'⟩ =
          s.participants.get ⟨i, h⟩) ∧
       ((s.participants.get ⟨i, h⟩).id = r.id →
        ((applyParticipantUpdate s r).participants.get ⟨i, h'⟩).id =
            (s.participants.get ⟨i, h⟩).id ∧
        ((applyParticipantUpdate s r).participants.get ⟨i, h'⟩).roomId =
            (s.participants.get ⟨i, h⟩).roomId ∧
        ((applyParticipantUpdate s r).participants.get ⟨i, h'⟩).username =
            (s.participants.get ⟨i, h⟩).username ∧
        ((applyParticipantUpdate s r).participants.get ⟨i, h'⟩).joinedAt =
            (s.participants.get ⟨i, h⟩).joinedAt ∧
        ((applyParticipantUpdate s r).participants.get ⟨i, h'⟩).userId =
            (s.participants.get ⟨i, h⟩).userId ∧
        ((applyParticipantUpdate s r).participants.get ⟨i, h'⟩).lastSeen =
            r.last_seen ∧
        ((applyParticipantUpdate s r).participants.get ⟨i, h'⟩).isOnline =
            r.is_online)) := by
  refine ⟨⟨rfl, rfl, rfl, rfl, rfl, by simp [applyParticipantUpdate]⟩, ?_⟩
  intro h'
  have hget : (applyParticipantUpdate s r).participants.get ⟨i, h'⟩ =
      updateParticipantFields r (s.participants.get ⟨i, h⟩) := by
    simp [applyParticipantUpdate]
  constructor
  · intro hne
    rw [hget]
    unfold updateParticipantFields
    rw [if_neg hne]
  · intro heq
    rw [hget]
    unfold updateParticipantFields
    rw [if_pos heq]
    exact ⟨rfl, rfl, rfl, rfl, rfl, rfl, rfl⟩

/-- C7 witness: the UPDATE merge on a concrete two-participant state. -/
theorem participant_update_frame_witness :
    let s : ChatState :=
      ⟨[], [⟨"p1", "r1", "alice", 10, 10, false, none⟩,
            ⟨"p2", "r1", "bob", 11, 11, true, none⟩], true, false, none, none⟩
    let r : ParticipantRow := ⟨"p1", "r1", "alice", 10, 99, true, none⟩
    (applyParticipantUpdate s r).participants =
      [⟨"p1", "r1", "alice", 10, 99, true, none⟩,
       ⟨"p2", "r1", "bob", 11, 11, true, none⟩] ∧
    (applyParticipantUpdate s r).messages = s.messages := by
  have h := participant_update_frame
    ⟨[], [⟨"p1", "r1", "alice", 10, 10, false, none⟩,
          ⟨"p2", "r1", "bob", 11, 11, true, none⟩], true, false, none, none⟩
    ⟨"p1", "r1", "alice", 10, 99, true, none⟩ 0 (by decide)
  exact ⟨by decide, h.1.1⟩

/-- C8: `makeRequest` performs at most `1 + RETRY_ATTEMPTS = 4` attempts,
the delay before the n-th retry is `RETRY_DELAY * n` ms, when every attempt
fails the last error propagates after delays 1000, 2000, 3000 ms, and a
subscription status of `CHANNEL_ERROR` or `TIMED_OUT` schedules a
reconnection after `RECONNECT_DELAY = 5000` ms. -/
theorem chat_retry_policy {α : Type} (attempts : Nat → Except String α) :
    ((makeRequest attempts).2.length + 1 ≤ 1 + RETRY_ATTEMPTS) ∧
    (∀ i, ∀ h : i < (makeRequest attempts).2.length,
      (makeRequest attempts).2.get ⟨i, h⟩ = RETRY_DELAY * (i + 1)) ∧
    ((∀ i, i ≤ RETRY_ATTEMPTS → ∃ e, attempts i = .error e) →
      (makeRequest attempts).1 = attempts RETRY_ATTEMPTS ∧
      (makeRequest attempts).2 = [1000, 2000, 3000]) ∧
    (∀ status, status = "CHANNEL_ERROR" ∨ status = "TIMED_OUT" →
      subscribeStatusReconnectDelay status = some RECONNECT_DELAY ∧
      RECONNECT_DELAY = 5000) := by
  have hsub : ∀ status, status = "CHANNEL_ERROR" ∨ status = "TIMED_OUT" →
      subscribeStatusReconnectDelay status = some RECONNECT_DELAY ∧
      RECONNECT_DELAY = 5000 := by
    rintro s (rfl | rfl) <;> exact ⟨rfl, rfl⟩
  have hcontra : ∀ (k : Nat) (v : α), k ≤ RETRY_ATTEMPTS → attempts k = .ok v →
      (∀ i, i ≤ RETRY_ATTEMPTS → ∃ e, attempts i = .error e) → False := by
    intro k v hk hok hall
    obtain ⟨e, he⟩ := hall k hk
    rw [hok] at he
    cases he
  rcases h0 : attempts 0 with e0 | v0
  · rcases h1 : attempts 1 with e1 | v1
    · rcases h2 : attempts 2 with e2 | v2
      · rcases h3 : attempts 3 with e3 | v3
        · have hM : makeRequest attempts = (.error e3, [1000, 2000, 3000]) := by
            rw [makeRequest, makeRequestFrom_error_lt h0 (by decide),
              makeRequestFrom_error_lt h1 (by decide),
              makeRequestFrom_error_lt h2 (by decide),
              makeRequestFrom_error_ge h3 (by decide)]
            rfl
          rw [hM]
          refine ⟨by norm_num [RETRY_ATTEMPTS], ?_, fun _ => ⟨h3.symm, rfl⟩, hsub⟩
          intro i h
          have hi : i < 3 := by simpa using h
          interval_cases i <;> rfl
        · have hM : makeRequest attempts = (.ok v3, [1000, 2000, 3000]) := by
            rw [makeRequest, makeRequestFrom_error_lt h0 (by decide),
              makeRequestFrom_error_lt h1 (by decide),
              makeRequestFrom_error_lt h2 (by decide),
              makeRequestFrom_ok h3]
            rfl
          rw [hM]
          refine ⟨by norm_num [RETRY_ATTEMPTS], ?_,
            fun hall => absurd (hcontra 3 v3 (by decide) h3 hall) not_false, hsub⟩
          intro i h
          have hi : i < 3 := by simpa using h
          interval_cases i <;> rfl
      · have hM : makeRequest attempts = (.ok v2, [1000, 2000]) := by
          rw [makeRequest, makeRequestFrom_error_lt h0 (by decide),
            makeRequestFrom_error_lt h1 (by decide),
            makeRequestFrom_ok h2]
          rfl
        rw [hM]
        refine ⟨by norm_num [RETRY_ATTEMPTS], ?_,
          fun hall => absurd (hcontra 2 v2 (by decide) h2 hall) not_false, hsub⟩
        intro i h
        have hi : i < 2 := by simpa using h
        interval_cases i <;> rfl
    · have hM : makeRequest attempts = (.ok v1, [1000]) := by
        rw [makeRequest, makeRequestFrom_error_lt h0 (by decide),
          makeRequestFrom_ok h1]
        rfl
      rw [hM]
      refine ⟨by norm_num [RETRY_ATTEMPTS], ?_,
        fun hall => absurd (hcontra 1 v1 (by decide) h1 hall) not_false, hsub⟩
      intro i h
      have hi : i < 1 := by simpa using h
      interval_cases i
      rfl
  · have hM : makeRequest attempts = (.ok v0, []) := by
      rw [makeRequest, makeRequestFrom_ok h0]
    rw [hM]
    refine ⟨by norm_num [RETRY_ATTEMPTS], ?_,
      fun hall => absurd (hcontra 0 v0 (by decide) h0 hall) not_false, hsub⟩
    intro i h
    simp at h

/-- C8 witness: the retry policy with every attempt failing, and the
reconnect delay on `CHANNEL_ERROR`. -/
theorem chat_retry_policy_witness :
    (makeRequest (fun i => (.error (Nat.repr i) : Except String Nat))).1 =
      .error "3" ∧
    (makeRequest (fun i => (.error (Nat.repr i) : Except String Nat))).2 =
      [1000, 2000, 3000] ∧
    subscribeStatusReconnectDelay "CHANNEL_ERROR" = some 5000 := by
  have h := chat_retry_policy (fun i => (.error (Nat.repr i) : Except String Nat))
  obtain ⟨-, -, h3, h4⟩ := h
  have hall : ∀ i, i ≤ RETRY_ATTEMPTS →
      ∃ e, (fun i => (.error (Nat.repr i) : Except String Nat)) i = .error e :=
    fun i _ => ⟨Nat.repr i, rfl⟩
  obtain ⟨ha, hb⟩ := h3 hall
  refine ⟨ha, hb, ?_⟩
  have hc := (h4 "CHANNEL_ERROR" (Or.inl rfl)).1
  simpa [RECONNECT_DELAY] using hc

/-- C9: for a token not currently marked for deletion, marking it
(`handleDeleteExistingFile`) and then undoing (`handleUndoDeleteExistingFile`)
restores `filesToDelete` exactly, and undoing an absent token is the
identity. -/
theorem delete_undo_roundtrip (l : List String) (t : String) (h : t ∉ l) :
    handleUndoDeleteExistingFile (handleDeleteExistingFile l t) t = l ∧
    handleUndoDeleteExistingFile l t = l := by
  have hself : l.filter (fun token => token ≠ t) = l := by
    apply List.filter_eq_self.mpr
    intro a ha
    simp only [decide_eq_true_eq]
    intro heq
    exact h (heq ▸ ha)
  constructor
  · unfold handleDeleteExistingFile handleUndoDeleteExistingFile
    rw [List.filter_append, hself]
    simp
  · exact hself

/-- C9 witness: the round trip on a concrete list. -/
theorem delete_undo_roundtrip_witness :
    handleUndoDeleteExistingFile (handleDeleteExistingFile ["a", "b"] "c") "c" = ["a", "b"] ∧
    handleUndoDeleteExistingFile ["a", "b"] "c" = ["a", "b"] :=
  delete_undo_roundtrip ["a", "b"] "c" (by decide)

/-- C10 counterexample: at `n = 1024 ^ 4` the unit index is 4, which is out
of range of the four-element unit list, so `formatFileSize` returns
`"1 undefined"` — the unit is not defined for every non-negative byte
count. -/
theorem formatFileSize_undefined_cex :
    formatFileSize (1024 ^ 4) = "1 undefined" ∧
    sizesList.get? (Nat.log 1024 (1024 ^ 4)) = none := by
  have hlog : Nat.log 1024 (1024 ^ 4) = 4 := Nat.log_pow (by norm_num) 4
  constructor
  · rw [formatFileSize_pos _ (by positivity), hlog]
    norm_num [hundredthsOf, fmtHundredths, sizesList]
    rfl
  · rw [hlog]
    rfl

/-- C10 (amended): `formatFileSize 0 = "0 Bytes"`; for `0 < n < 1024 ^ 4`
the result is the value rounded to two decimals followed by the unit at
index `⌊log n / log 1024⌋` of `['Bytes', 'KB', 'MB', 'GB']`, which is
in range there; for `n ≥ 1024 ^ 4` the index is out of range and the
rendered unit is the string `"undefined"`. -/
theorem formatFileSize_bounds (n : Nat) (hpos : 0 < n) :
    formatFileSize 0 = "0 Bytes" ∧
    (n < 1024 ^ 4 →
      ∃ h : Nat.log 1024 n < sizesList.length,
        formatFileSize n =
          fmtHundredths (hundredthsOf n (1024 ^ Nat.log 1024 n)) ++ " " ++
            sizesList.get ⟨Nat.log 1024 n, h⟩) ∧
    (1024 ^ 4 ≤ n →
      sizesList.length ≤ Nat.log 1024 n ∧
      formatFileSize n =
        fmtHundredths (hundredthsOf n (1024 ^ Nat.log 1024 n)) ++ " " ++ "undefined") := by
  have hne : ¬ n = 0 := by omega
  refine ⟨rfl, ?_, ?_⟩
  · intro hlt
    have hlog : Nat.log 1024 n < 4 := Nat.log_lt_of_lt_pow hne hlt
    refine ⟨by simpa [sizesList] using hlog, ?_⟩
    rw [formatFileSize_pos n hne]
    congr 1
    rw [List.getD_eq_getElem sizesList "undefined" (by simpa [sizesList] using hlog)]
    simp
  · intro hge
    have hlog : 4 ≤ Nat.log 1024 n :=
      (Nat.pow_le_iff_le_log (by norm_num) hne).mp hge
    refine ⟨by simpa [sizesList] using hlog, ?_⟩
    rw [formatFileSize_pos n hne]
    rw [List.getD_eq_default _ _ (by simpa [sizesList] using hlog)]

/-- C10 witness: the amended statement at `n = 1536`. -/
theorem formatFileSize_bounds_witness :
    formatFileSize 0 = "0 Bytes" ∧ formatFileSize 1536 = "1.5 KB" := by
  have h := (formatFileSize_bounds 1536 (by norm_num)).2.1 (by norm_num)
  refine ⟨(formatFileSize_bounds 1536 (by norm_num)).1, ?_⟩
  obtain ⟨hb, heq⟩ := h
  rw [heq]
  have hlog : Nat.log 1024 1536 = 1 :=
    Nat.log_eq_of_pow_le_of_lt_pow (by norm_num) (by norm_num)
  norm_num [hlog, hundredthsOf, fmtHundredths, sizesList]
  rfl
